import Mathlib

/-!
Verification development for the Snapgram client's data-access layer
(`src/lib/appwrite/api.ts`).

Modelling conventions (shallow embedding of the TypeScript code):

* Every remote-service call (document store, blob store, account service)
  is external to the repository.  Its outcome is supplied by an explicit
  environment value of type `RCall α` with three constructors, covering
  exactly the cases the TypeScript code can observe:
  - `ok v`      : the promise resolved with a truthy value `v`
                  (Appwrite documents / file objects / URLs are objects,
                  hence truthy in JavaScript);
  - `nullish`   : the promise resolved with a falsy value (the case the
                  code tests with `if (!x) ...`);
  - `exn`       : the promise rejected / the call threw (the case handled
                  by the surrounding `try { ... } catch`).

* JavaScript strings are modelled as `String` for opaque identifiers and
  as `List Char` where character-level operations matter (tag
  normalization).  JavaScript string truthiness is "non-empty";
  `undefined`-able parameters are `Option String`, and number truthiness
  is "non-zero".

* Each workflow is a pure function from its input and its environment to
  a pair `(result, trace)`.  The result is `none` when the JavaScript
  function returns `undefined` (its `catch` branch logs and falls
  through).  The `Trace` records the externally visible side effects the
  workflow issued: blob uploads that returned an id, blob deletions
  issued via `deleteFile`, and document-store calls issued.

* A document write is applied by the store exactly when the corresponding
  call returns `ok`; `storedAfterUpdate` gives the stored document after
  an update workflow (unchanged when the workflow failed).
-/

/-- Outcome of one remote SDK call, as observable by the calling code:
resolved truthy, resolved falsy, or thrown/rejected. -/
inductive RCall (α : Type) where
  | ok (v : α)
  | nullish
  | exn
deriving DecidableEq, Repr

/-- JavaScript truthiness collapse: the code paths `if (!x)` and
`catch` both lead away from the happy path inside the small helpers
`uploadFile`, `getFilePreview`, `deleteFile`, which catch their own
exceptions and return `undefined` on any failure. -/
def RCall.toOption {α : Type} : RCall α → Option α
  | .ok v => some v
  | .nullish => none
  | .exn => none

/-- Truthiness of a possibly-`undefined` JavaScript string:
`undefined` and `""` are falsy. -/
def jsTruthyStr : Option String → Bool
  | none => false
  | some s => s ≠ ""

/-- Truthiness of a possibly-`undefined` JavaScript number: `undefined`
and `0` are falsy. -/
def jsTruthyNum : Option Int → Bool
  | none => false
  | some n => n ≠ 0

/-- Externally visible side effects issued by one workflow invocation:
ids of blobs uploaded (and returned by the store), ids of blobs whose
deletion was issued via `deleteFile`, and the number of document-store
calls issued. -/
structure Trace where
  uploads : List String
  blobDeletes : List String
  docCalls : Nat
deriving DecidableEq, Repr

def Trace.empty : Trace := { uploads := [], blobDeletes := [], docCalls := 0 }

/-- `uploadFile` (api.ts 147-159): wraps `storage.createFile` in
try/catch, returns the uploaded file on success and `undefined` on any
failure.  The environment's outcome carries the id the store assigned. -/
def uploadFile (r : RCall String) : Option String := r.toOption

/-- `getFilePreview` (api.ts 162-178): wraps `storage.getFilePreview`,
checks the result for truthiness, returns `undefined` on any failure. -/
def getFilePreview (r : RCall String) : Option String := r.toOption

/-- Tag normalization as written at api.ts 119 and 288:
`post.tags?.replace(/ /g, "").split(",") || []`.
An absent `tags` makes the optional-chain produce `undefined`, so the
`|| []` yields `[]`.  A present string has every space character (only
`' '`, the regex is a literal space) removed and is then split on `','`;
in JavaScript, `"".split(",")` is `[""]`, and a non-empty array is
truthy, so the `|| []` never fires for a present string. -/
def normalizeTags : Option (List Char) → List (List Char)
  | none => []
  | some s => (s.filter (fun c => c != ' ')).splitOn ','

/-- Input of `updatePost` (`IUpdatePost`): the existing post id, the
mutable fields, the existing image reference, and the (possibly empty)
list of newly chosen files.  File contents are opaque: only whether the
list is empty matters to the control flow. -/
structure IUpdatePost where
  postId : String
  caption : String
  imageUrl : String
  imageId : String
  location : String
  tags : Option (List Char)
  file : List Unit
deriving Repr

/-- Input of `createPost` (`INewPost`). -/
structure INewPost where
  userId : String
  caption : String
  location : String
  tags : Option (List Char)
  file : List Unit
deriving Repr

/-- Input of `updateUser` (`IUpdateUser`). -/
structure IUpdateUser where
  userId : String
  name : String
  bio : String
  imageUrl : String
  imageId : String
  file : List Unit
deriving Repr

/-- The image reference threaded through the update workflows
(`let image = { imageUrl: ..., imageId: ... }`). -/
structure ImageRef where
  imageUrl : String
  imageId : String
deriving DecidableEq, Repr

/-- Fields written by `createPost`'s `createDocument` call
(api.ts 126-133). -/
structure CreatePostPayload where
  creator : String
  caption : String
  imageUrl : String
  imageId : String
  location : String
  tags : List (List Char)
deriving DecidableEq, Repr

/-- Fields written by `updatePost`'s `updateDocument` call
(api.ts 294-300). -/
structure UpdatePostPayload where
  caption : String
  imageUrl : String
  imageId : String
  location : String
  tags : List (List Char)
deriving DecidableEq, Repr

/-- Environment for one invocation of a create/update workflow:
outcomes of the blob upload, the preview-URL derivation, and the
document persist call, in program order. -/
structure WriteEnv where
  uploadRes : RCall String
  previewRes : RCall String
  persistRes : RCall Unit
deriving Repr

/-- `createPost` (api.ts 106-144).  Upload the image; on a falsy upload
result throw (caught: result `undefined`).  Derive the preview URL; on
failure delete the just-uploaded blob and throw.  Normalize tags and
issue `createDocument`; a falsy document triggers `deleteFile` on the
uploaded blob before throwing, while a thrown `createDocument` is caught
directly by the outer catch. -/
def createPost (post : INewPost) (env : WriteEnv) :
    Option CreatePostPayload × Trace :=
  match uploadFile env.uploadRes with
  | none => (none, Trace.empty)
  | some uploadedId =>
    match getFilePreview env.previewRes with
    | none =>
      (none, { uploads := [uploadedId], blobDeletes := [uploadedId], docCalls := 0 })
    | some fileUrl =>
      let tags := normalizeTags post.tags
      let doc : CreatePostPayload :=
        { creator := post.userId, caption := post.caption, imageUrl := fileUrl,
          imageId := uploadedId, location := post.location, tags := tags }
      match env.persistRes with
      | .ok _ =>
        (some doc, { uploads := [uploadedId], blobDeletes := [], docCalls := 1 })
      | .nullish =>
        (none, { uploads := [uploadedId], blobDeletes := [uploadedId], docCalls := 1 })
      | .exn =>
        (none, { uploads := [uploadedId], blobDeletes := [], docCalls := 1 })

/-- `updatePost` (api.ts 267-316).  With no new file the existing image
reference is kept; with a new file it is uploaded and its preview URL
derived (on preview failure the new blob is deleted and the workflow
fails).  Then `updateDocument` is issued; a falsy result triggers
`deleteFile` on the new blob (when one was uploaded) before throwing,
a thrown call is caught by the outer catch with no deletion; on success
the old blob id `post.imageId` is deleted when a new file was uploaded. -/
def updatePost (post : IUpdatePost) (env : WriteEnv) :
    Option UpdatePostPayload × Trace :=
  let hasFileToUpdate := decide (post.file.length > 0)
  let persist := fun (image : ImageRef) (tr : Trace) =>
    let tags := normalizeTags post.tags
    let doc : UpdatePostPayload :=
      { caption := post.caption, imageUrl := image.imageUrl,
        imageId := image.imageId, location := post.location, tags := tags }
    match env.persistRes with
    | .ok _ =>
      (some doc,
        { tr with docCalls := tr.docCalls + 1,
                  blobDeletes := tr.blobDeletes ++
                    (if hasFileToUpdate then [post.imageId] else []) })
    | .nullish =>
      (none,
        { tr with docCalls := tr.docCalls + 1,
                  blobDeletes := tr.blobDeletes ++
                    (if hasFileToUpdate then [image.imageId] else []) })
    | .exn =>
      (none, { tr with docCalls := tr.docCalls + 1 })
  if hasFileToUpdate then
    match uploadFile env.uploadRes with
    | none => (none, Trace.empty)
    | some uploadedId =>
      match getFilePreview env.previewRes with
      | none =>
        (none, { uploads := [uploadedId], blobDeletes := [uploadedId], docCalls := 0 })
      | some fileUrl =>
        persist { imageUrl := fileUrl, imageId := uploadedId }
          { uploads := [uploadedId], blobDeletes := [], docCalls := 0 }
  else
    persist { imageUrl := post.imageUrl, imageId := post.imageId } Trace.empty

/-- `updateUser`'s `updateDocument` payload (api.ts 428-433), kept as a
field-name/value list because the claim about it concerns the persisted
field names themselves.  The source writes the bio under the key
`"bi0"`. -/
def updateUserPayload (user : IUpdateUser) (image : ImageRef) :
    List (String × String) :=
  [("name", user.name), ("bi0", user.bio),
   ("imageUrl", image.imageUrl), ("imageId", image.imageId)]

/-- `updateUser` (api.ts 404-449).  Same shape as `updatePost`, except:
the payload is the user-profile field list, and the success-path
deletion of the old blob is additionally guarded by the truthiness of
`user.imageId` (`if (user.imageId && hasFileToUpdate)`). -/
def updateUser (user : IUpdateUser) (env : WriteEnv) :
    Option (List (String × String)) × Trace :=
  let hasFileToUpdate := decide (user.file.length > 0)
  let persist := fun (image : ImageRef) (tr : Trace) =>
    let payload := updateUserPayload user image
    match env.persistRes with
    | .ok _ =>
      (some payload,
        { tr with docCalls := tr.docCalls + 1,
                  blobDeletes := tr.blobDeletes ++
                    (if user.imageId ≠ "" && hasFileToUpdate
                     then [user.imageId] else []) })
    | .nullish =>
      (none,
        { tr with docCalls := tr.docCalls + 1,
                  blobDeletes := tr.blobDeletes ++
                    (if hasFileToUpdate then [image.imageId] else []) })
    | .exn =>
      (none, { tr with docCalls := tr.docCalls + 1 })
  if hasFileToUpdate then
    match uploadFile env.uploadRes with
    | none => (none, Trace.empty)
    | some uploadedId =>
      match getFilePreview env.previewRes with
      | none =>
        (none, { uploads := [uploadedId], blobDeletes := [uploadedId], docCalls := 0 })
      | some fileUrl =>
        persist { imageUrl := fileUrl, imageId := uploadedId }
          { uploads := [uploadedId], blobDeletes := [], docCalls := 0 }
  else
    persist { imageUrl := user.imageUrl, imageId := user.imageId } Trace.empty

/-- The stored document after an update workflow: the store applies the
written fields exactly when the workflow's persist call succeeded
(result `some doc`); otherwise the stored document is unchanged. -/
def storedAfterUpdate (old : UpdatePostPayload) (res : Option UpdatePostPayload) :
    UpdatePostPayload :=
  res.getD old

/-- `deletePost` (api.ts 319-337).  A falsy `postId` or `imageId` makes
the workflow return immediately (`if (!postId || !imageId) return;`),
before the try-block, with no remote call issued.  Otherwise
`deleteDocument` is issued; a falsy status throws (caught) and the blob
deletion is only reached when the document deletion returned truthy. -/
def deletePost (postId imageId : Option String) (delDocRes : RCall Unit) :
    Option String × Trace :=
  if !jsTruthyStr postId || !jsTruthyStr imageId then
    (none, Trace.empty)
  else
    match delDocRes with
    | .ok _ =>
      (some "Ok",
        { uploads := [], blobDeletes := [imageId.getD ""], docCalls := 1 })
    | .nullish => (none, { uploads := [], blobDeletes := [], docCalls := 1 })
    | .exn => (none, { uploads := [], blobDeletes := [], docCalls := 1 })

/-- Stored post document (for `getPostById`), kept abstract. -/
structure PostDoc where
  id : String
deriving DecidableEq, Repr

/-- `getPostById` (api.ts 247-264).  The guard `if (!postId) throw Error;`
sits OUTSIDE the try/catch, so a falsy `postId` throws to the caller:
modelled as `Except.error ()`.  Inside the try, both a falsy document and
a thrown `getDocument` are caught, yielding `undefined` (`none`). -/
def getPostById (postId : Option String) (env : RCall PostDoc) :
    Except Unit (Option PostDoc) :=
  if !jsTruthyStr postId then .error ()
  else .ok env.toOption

/-- Result of `createUserAccount`: the saved user document, the caught
error value returned by the catch branch (`return error;`), or
`undefined` (when `saveUserToDB` swallowed its own failure and returned
`undefined`). -/
inductive CUAOut where
  | user (doc : List (String × String))
  | errVal
  | undef
deriving DecidableEq, Repr

/-- Environment for `createUserAccount`: outcomes of `account.create`
(the ok value carries the new account's id, name, email) and of
`saveUserToDB`'s `createDocument`. -/
structure CUAEnv where
  accountRes : RCall (String × String × String)
  saveRes : RCall Unit
deriving Repr

/-- `saveUserToDB` (api.ts 36-55): wraps `createDocument` in try/catch,
returns the created document on success and `undefined` on any failure
(falsy result or thrown call). -/
def saveUserToDB (fields : List (String × String)) (r : RCall Unit) :
    Option (List (String × String)) :=
  match r with
  | .ok _ => some fields
  | .nullish => none
  | .exn => none

/-- `createUserAccount` (api.ts 6-33).  `account.create` failing (falsy
result or throw) reaches the catch, which RETURNS the error value.  On
success the avatar URL is derived (pure) and `saveUserToDB` is called;
its `undefined` is passed straight through as the return value.  The
whole body is inside try/catch, so no exception escapes. -/
def createUserAccount (email password name username : String) (env : CUAEnv) :
    CUAOut :=
  match env.accountRes with
  | .ok acc =>
    let avatarUrl := "initials:" ++ acc.2.1
    let fields :=
      [("accountId", acc.1), ("name", acc.2.1), ("email", acc.2.2),
       ("username", username), ("imageUrl", avatarUrl)]
    match saveUserToDB fields env.saveRes with
    | some doc => .user doc
    | none => .undef
  | .nullish => .errVal
  | .exn => .errVal

/-- Queries issued to `listDocuments`, restricted to the constructors
the two claims need. -/
inductive Query where
  | orderDesc (field : String)
  | limitQ (n : Int)
  | cursorAfter (cursor : String)
deriving DecidableEq, Repr

/-- Query list built by `getUsers` (api.ts 382-387):
`[orderDesc("$createdAt")]`, with `limit(limit)` pushed only when
`limit` is truthy (`if (limit)`), so `0` and `undefined` both skip it. -/
def getUsersQueries (limit : Option Int) : List Query :=
  let queries := [Query.orderDesc "$createdAt"]
  if jsTruthyNum limit then queries ++ [Query.limitQ (limit.getD 0)]
  else queries

/-! ### Concrete demonstration inputs shared by several results -/

/-- A create-post input with caption "Hello" and no tags supplied. -/
def demoNewPost : INewPost :=
  { userId := "user1", caption := "Hello", location := "loc",
    tags := none, file := [()] }

/-- An update-user input carrying a new file and a non-trivial bio. -/
def demoUpdateUser : IUpdateUser :=
  { userId := "u1", name := "Ada", bio := "hello bio",
    imageUrl := "urlOld", imageId := "blobOld", file := [()] }

/-- An environment where upload, preview derivation and persist all
succeed. -/
def demoEnvOk : WriteEnv :=
  { uploadRes := .ok "blobNew", previewRes := .ok "urlNew",
    persistRes := .ok () }

/-- An update-post input carrying a new file and an existing image
reference. -/
def demoUpdatePost : IUpdatePost :=
  { postId := "p1", caption := "cap", imageUrl := "urlOld",
    imageId := "blobOld", location := "loc", tags := none, file := [()] }

/-- An update-post input with no new file chosen. -/
def demoNoFilePost : IUpdatePost :=
  { postId := "p1", caption := "cap", imageUrl := "urlOld",
    imageId := "blobOld", location := "loc", tags := none, file := [] }

/-- An update-user input with no new file chosen. -/
def demoNoFileUser : IUpdateUser :=
  { userId := "u1", name := "Ada", bio := "hello bio",
    imageUrl := "urlOld", imageId := "blobOld", file := [] }

/-- The stored post document before the demo update. -/
def demoOldPayload : UpdatePostPayload :=
  { caption := "old cap", imageUrl := "urlOld", imageId := "blobOld",
    location := "old loc", tags := [] }

/-- Environment where upload and preview succeed but the document
persist call throws (is rejected). -/
def demoEnvPersistExn : WriteEnv :=
  { uploadRes := .ok "blobNew", previewRes := .ok "urlNew",
    persistRes := .exn }

/-- Environment where upload and preview succeed but the document
persist call resolves with a falsy result. -/
def demoEnvPersistNull : WriteEnv :=
  { uploadRes := .ok "blobNew", previewRes := .ok "urlNew",
    persistRes := .nullish }

/-- Environment where the upload succeeds but the preview-URL derivation
fails. -/
def demoEnvPreviewFail : WriteEnv :=
  { uploadRes := .ok "blobNew", previewRes := .nullish,
    persistRes := .ok () }

/-- An update-user input whose existing image id is the empty string. -/
def demoUpdateUserEmptyOld : IUpdateUser :=
  { userId := "u1", name := "Ada", bio := "hello bio",
    imageUrl := "", imageId := "", file := [()] }

/-- Environment for `createUserAccount` whose account-creation call
throws. -/
def demoCUAEnvExn : CUAEnv := { accountRes := .exn, saveRes := .ok () }

/-- Environment for `createUserAccount` whose account creation succeeds
but whose user-document save throws. -/
def demoCUAEnvSaveExn : CUAEnv :=
  { accountRes := .ok ("a1", "Ada", "ada@x.y"), saveRes := .exn }

/-- Query list built by `getInfinitePosts` (api.ts 340-345):
`[orderDesc("$updatedAt"), limit(9)]`, with `cursorAfter(pageParam)`
pushed only when `pageParam` is truthy, so `0` skips the cursor. -/
def getInfinitePostsQueries (pageParam : Int) : List Query :=
  let queries := [Query.orderDesc "$updatedAt", Query.limitQ 9]
  if jsTruthyNum (some pageParam) then
    queries ++ [Query.cursorAfter (toString pageParam)]
  else queries

/-! ### Helper lemmas about tag normalization -/

lemma mem_intersperse_of_mem {α : Type} (sep : α) {a : α} :
    ∀ {l : List α}, a ∈ l → a ∈ l.intersperse sep := by
  intro l
  induction l with
  | nil => intro h; exact absurd h (List.not_mem_nil a)
  | cons b t ih =>
    intro h
    cases t with
    | nil => simpa using h
    | cons c t2 =>
      rw [List.intersperse_cons_cons]
      rcases List.mem_cons.mp h with h1 | h2
      · exact h1 ▸ List.mem_cons_self _ _
      · exact List.mem_cons_of_mem _ (List.mem_cons_of_mem _ (ih h2))

/-- Every character of every part produced by `splitOn c` occurs in the
original list. -/
lemma mem_of_mem_splitOn {c : Char} {t s : List Char}
    (ht : t ∈ s.splitOn c) {x : Char} (hx : x ∈ t) : x ∈ s := by
  have hj : [c].intercalate (s.splitOn c) = s := List.intercalate_splitOn s c
  rw [← hj]
  simp only [List.intercalate]
  exact List.mem_flatten.mpr ⟨t, mem_intersperse_of_mem _ ht, hx⟩

/-- The space-filter is idempotent, so normalizing an already space-free
string only splits it. -/
lemma filter_nospace_idem (l : List Char) :
    ((l.filter fun c => c != ' ').filter fun c => c != ' ') =
      l.filter fun c => c != ' ' :=
  List.filter_eq_self.mpr fun _ ha => (List.mem_filter.mp ha).2

/-! ### Claim theorems -/

/-- C9: tag normalization is idempotent: for every input string,
normalizing, joining the resulting tags with commas, and normalizing
again yields the same tag sequence; in particular
"Art, Expression, Learn" normalizes to ["Art","Expression","Learn"] and
re-normalizing "Art,Expression,Learn" yields the same sequence. -/
theorem C9_normalizeTags_idempotent :
    (∀ s : List Char,
      normalizeTags (some (List.intercalate [','] (normalizeTags (some s)))) =
        normalizeTags (some s)) ∧
    normalizeTags (some "Art, Expression, Learn".toList) =
      ["Art".toList, "Expression".toList, "Learn".toList] ∧
    normalizeTags (some "Art,Expression,Learn".toList) =
      ["Art".toList, "Expression".toList, "Learn".toList] := by
  refine ⟨fun s => ?_, by decide, by decide⟩
  simp only [normalizeTags]
  rw [List.intercalate_splitOn, filter_nospace_idem]

/-- C10: optional numeric parameters are tested for truthiness, so a
caller passing 0 gets the absent behaviour: `getUsers` with limit 0
issues its query with no page-size limit (same query list as an absent
limit), and `getInfinitePosts` with pageParam 0 issues its query with no
cursor. -/
theorem C10_zero_behaves_as_absent :
    getUsersQueries (some 0) = [Query.orderDesc "$createdAt"] ∧
    getUsersQueries none = getUsersQueries (some 0) ∧
    getInfinitePostsQueries 0 = [Query.orderDesc "$updatedAt", Query.limitQ 9] := by
  refine ⟨by decide, by decide, by decide⟩

/-- C3 is refuted at concrete inputs: the empty tags string normalizes to
a one-element list holding the empty tag (JavaScript `"".split(",")` is
`[""]`), not to the empty tag set; and a tab character survives
normalization, so not all whitespace is stripped (only the space
character is). -/
theorem C3_counterexample :
    normalizeTags (some "".toList) = [[]] ∧
    (normalizeTags (some "".toList)).length = 1 ∧
    normalizeTags (some ['a', '\t', 'b']) = [['a', '\t', 'b']] := by decide

/-- C3 (amended): the normalization strips every space character (only
spaces, not all whitespace) and splits on comma; an ABSENT tags input
yields the empty tag list (while the empty string yields a single empty
tag), and creating a post with absent tags and a valid image yields a
Post document with tags = [], imageUrl and imageId set from the upload,
and creator equal to the supplied user id. -/
theorem C3_tags_normalization_amended :
    normalizeTags none = [] ∧
    (∀ (s t : List Char), t ∈ normalizeTags (some s) → ∀ c ∈ t, (c != ' ') = true) ∧
    (∀ (post : INewPost) (env : WriteEnv) (uid url : String),
      post.tags = none →
      env.uploadRes = RCall.ok uid →
      env.previewRes = RCall.ok url →
      env.persistRes = RCall.ok () →
      (createPost post env).1 =
        some { creator := post.userId, caption := post.caption, imageUrl := url,
               imageId := uid, location := post.location, tags := [] }) := by
  refine ⟨rfl, ?_, ?_⟩
  · intro s t ht c hc
    have hmem : c ∈ s.filter (fun c => c != ' ') :=
      mem_of_mem_splitOn ht hc
    exact (List.mem_filter.mp hmem).2
  · intro post env uid url htags hu hp hper
    simp [createPost, uploadFile, getFilePreview, RCall.toOption, hu, hp, hper,
      htags, normalizeTags]

/-- Witness for the amended C3: the hypotheses are discharged at the
concrete input "x, y" (whose normalization contains the tag "x") and at
a concrete post created with absent tags in an all-success
environment. -/
theorem C3_tags_normalization_witness :
    (('x' != ' ') = true) ∧
    (createPost demoNewPost demoEnvOk).1 =
      some { creator := "user1", caption := "Hello", imageUrl := "urlNew",
             imageId := "blobNew", location := "loc", tags := [] } := by
  constructor
  · exact C3_tags_normalization_amended.2.1 "x, y".toList "x".toList
      (by decide) 'x' (by decide)
  · exact C3_tags_normalization_amended.2.2 demoNewPost demoEnvOk
      "blobNew" "urlNew" rfl rfl rfl rfl

/-- C4: the claim says `updateUser` writes the persisted field names
`name`, `bio`, `imageUrl`, `imageId`; the code (api.ts 430) writes the
bio under the misspelled key `bi0`, so the payload's field-name list is
["name","bi0","imageUrl","imageId"] and contains no "bio" key.  This
evaluates the workflow at a concrete failing input. -/
theorem C4_bio_written_under_bi0 :
    ((updateUserPayload demoUpdateUser
        { imageUrl := "urlNew", imageId := "blobNew" }).map Prod.fst) =
      ["name", "bi0", "imageUrl", "imageId"] ∧
    (updateUser demoUpdateUser demoEnvOk).1 =
      some [("name", "Ada"), ("bi0", "hello bio"),
            ("imageUrl", "urlNew"), ("imageId", "blobNew")] ∧
    ((updateUserPayload demoUpdateUser
        { imageUrl := "urlNew", imageId := "blobNew" }).map Prod.fst).contains
      "bio" = false := by decide

/-- C6: deletePost invoked with an absent post id or an absent image id
returns immediately (undefined) with no remote calls issued; and in
every run, a blob deletion is issued only when the document deletion
succeeded, so "blob gone but document remains" is never attempted. -/
theorem C6_deletePost_noop_and_ordering :
    (∀ (img : Option String) (env : RCall Unit),
      deletePost none img env = (none, Trace.empty)) ∧
    (∀ (pid : Option String) (env : RCall Unit),
      deletePost pid none env = (none, Trace.empty)) ∧
    (∀ (pid img : Option String) (env : RCall Unit) (b : String),
      b ∈ (deletePost pid img env).2.blobDeletes →
      env = RCall.ok () ∧ (deletePost pid img env).2.docCalls = 1) := by
  refine ⟨fun img env => rfl, fun pid env => ?_, ?_⟩
  · simp [deletePost, jsTruthyStr]
  · intro pid img env b hb
    simp only [deletePost] at hb ⊢
    by_cases h : (!jsTruthyStr pid || !jsTruthyStr img) = true
    · rw [if_pos h] at hb
      simp [Trace.empty] at hb
    · rw [if_neg h] at hb ⊢
      cases env with
      | ok v => cases v; exact ⟨rfl, rfl⟩
      | nullish => simp at hb
      | exn => simp at hb

/-- Witness for C6 at concrete inputs: an absent post id (and an absent
image id) is a no-op, and with both ids present and a successful
document deletion the blob deletion is issued after one document
call. -/
theorem C6_deletePost_witness :
    deletePost none (some "img") (RCall.ok ()) = (none, Trace.empty) ∧
    deletePost (some "p") none (RCall.ok ()) = (none, Trace.empty) ∧
    ((RCall.ok () : RCall Unit) = RCall.ok () ∧
      (deletePost (some "p") (some "img") (RCall.ok ())).2.docCalls = 1) :=
  ⟨C6_deletePost_noop_and_ordering.1 (some "img") (RCall.ok ()),
   C6_deletePost_noop_and_ordering.2.1 (some "p") (RCall.ok ()),
   C6_deletePost_noop_and_ordering.2.2 (some "p") (some "img") (RCall.ok ())
     "img" (by decide)⟩

/-- C7: when no new image is supplied (empty file list), both update
workflows perform no blob upload and no blob deletion, the fields they
write carry the caller's existing image reference unchanged, and the
stored image reference after the call equals the reference before the
call whether or not the persist step succeeds. -/
theorem C7_no_new_image_frame :
    (∀ (post : IUpdatePost) (env : WriteEnv), post.file = [] →
      (updatePost post env).2.uploads = [] ∧
      (updatePost post env).2.blobDeletes = [] ∧
      (∀ doc, (updatePost post env).1 = some doc →
        doc.imageUrl = post.imageUrl ∧ doc.imageId = post.imageId) ∧
      (∀ old : UpdatePostPayload,
        old.imageUrl = post.imageUrl → old.imageId = post.imageId →
        (storedAfterUpdate old (updatePost post env).1).imageUrl = old.imageUrl ∧
        (storedAfterUpdate old (updatePost post env).1).imageId = old.imageId)) ∧
    (∀ (user : IUpdateUser) (env : WriteEnv), user.file = [] →
      (updateUser user env).2.uploads = [] ∧
      (updateUser user env).2.blobDeletes = [] ∧
      (∀ pl, (updateUser user env).1 = some pl →
        pl = updateUserPayload user
          { imageUrl := user.imageUrl, imageId := user.imageId })) := by
  constructor
  · intro post env hfile
    cases henv : env.persistRes <;>
      simp [updatePost, hfile, henv, Trace.empty, storedAfterUpdate] <;>
      intro old hurl hid <;> simp [hurl, hid]
  · intro user env hfile
    cases henv : env.persistRes <;>
      simp [updateUser, hfile, henv, Trace.empty]

/-- Witness for C7 at concrete inputs with no new file: no upload, no
deletion, and the stored image reference is unchanged both under a
successful persist and under a failed one. -/
theorem C7_no_new_image_witness :
    (updatePost demoNoFilePost demoEnvOk).2.uploads = [] ∧
    (updatePost demoNoFilePost demoEnvOk).2.blobDeletes = [] ∧
    ((storedAfterUpdate demoOldPayload
        (updatePost demoNoFilePost demoEnvOk).1).imageUrl =
      demoOldPayload.imageUrl ∧
     (storedAfterUpdate demoOldPayload
        (updatePost demoNoFilePost demoEnvOk).1).imageId =
      demoOldPayload.imageId) ∧
    (updateUser demoNoFileUser demoEnvOk).2.blobDeletes = [] :=
  ⟨(C7_no_new_image_frame.1 demoNoFilePost demoEnvOk rfl).1,
   (C7_no_new_image_frame.1 demoNoFilePost demoEnvOk rfl).2.1,
   (C7_no_new_image_frame.1 demoNoFilePost demoEnvOk rfl).2.2.2
     demoOldPayload rfl rfl,
   (C7_no_new_image_frame.2 demoNoFileUser demoEnvOk rfl).2.1⟩

/-- C1 is refuted at a concrete input: update-post with a new image where
the document update fails by THROWING (rather than resolving falsy).
The workflow fails, the new blob "blobNew" was uploaded, yet no blob
deletion is issued at all — the newly uploaded blob is not deleted,
contrary to the claim. -/
theorem C1_counterexample :
    (updatePost demoUpdatePost demoEnvPersistExn).1 = none ∧
    (updatePost demoUpdatePost demoEnvPersistExn).2.uploads = ["blobNew"] ∧
    (updatePost demoUpdatePost demoEnvPersistExn).2.blobDeletes = [] := by
  decide

/-- C1 (amended): for both update workflows invoked with a new image,
if the document-update call fails by returning a falsy document, the
newly uploaded blob is deleted, that new blob is the ONLY deletion
issued (so the old blob, and every blob referenced by an existing
document, is untouched — the uploaded id being store-fresh), and the
stored document is unchanged, keeping its original imageId.  If the
document-update call instead fails by throwing, the workflow still
fails with the stored document unchanged but issues no deletion at all,
leaking the newly uploaded blob. -/
theorem C1_rollback_on_failed_update_amended :
    (∀ (post : IUpdatePost) (env : WriteEnv) (u url : String),
      0 < post.file.length →
      env.uploadRes = RCall.ok u →
      env.previewRes = RCall.ok url →
      env.persistRes = RCall.nullish →
      (updatePost post env).1 = none ∧
      (updatePost post env).2.blobDeletes = [u] ∧
      (∀ old : UpdatePostPayload,
        storedAfterUpdate old (updatePost post env).1 = old)) ∧
    (∀ (user : IUpdateUser) (env : WriteEnv) (u url : String),
      0 < user.file.length →
      env.uploadRes = RCall.ok u →
      env.previewRes = RCall.ok url →
      env.persistRes = RCall.nullish →
      (updateUser user env).1 = none ∧
      (updateUser user env).2.blobDeletes = [u]) ∧
    (∀ (post : IUpdatePost) (env : WriteEnv) (u url : String),
      0 < post.file.length →
      env.uploadRes = RCall.ok u →
      env.previewRes = RCall.ok url →
      env.persistRes = RCall.exn →
      (updatePost post env).1 = none ∧
      (updatePost post env).2.blobDeletes = []) ∧
    (∀ (user : IUpdateUser) (env : WriteEnv) (u url : String),
      0 < user.file.length →
      env.uploadRes = RCall.ok u →
      env.previewRes = RCall.ok url →
      env.persistRes = RCall.exn →
      (updateUser user env).1 = none ∧
      (updateUser user env).2.blobDeletes = []) := by
  refine ⟨?_, ?_, ?_, ?_⟩
  · intro post env u url hlen hu hp hper
    have hb : decide (post.file.length > 0) = true := decide_eq_true hlen
    simp [updatePost, hb, hu, hp, hper, uploadFile, getFilePreview,
      RCall.toOption, storedAfterUpdate]
  · intro user env u url hlen hu hp hper
    have hb : decide (user.file.length > 0) = true := decide_eq_true hlen
    simp [updateUser, hb, hu, hp, hper, uploadFile, getFilePreview,
      RCall.toOption]
  · intro post env u url hlen hu hp hper
    have hb : decide (post.file.length > 0) = true := decide_eq_true hlen
    simp [updatePost, hb, hu, hp, hper, uploadFile, getFilePreview,
      RCall.toOption]
  · intro user env u url hlen hu hp hper
    have hb : decide (user.file.length > 0) = true := decide_eq_true hlen
    simp [updateUser, hb, hu, hp, hper, uploadFile, getFilePreview,
      RCall.toOption]

/-- Witness for the amended C1: concrete update-post and update-user
runs with a new image whose document update resolves falsy delete
exactly the new blob, and concrete runs of both workflows whose
document update throws delete nothing. -/
theorem C1_rollback_witness :
    ((updatePost demoUpdatePost demoEnvPersistNull).1 = none ∧
     (updatePost demoUpdatePost demoEnvPersistNull).2.blobDeletes = ["blobNew"]) ∧
    (updateUser demoUpdateUser demoEnvPersistNull).2.blobDeletes = ["blobNew"] ∧
    (updatePost demoUpdatePost demoEnvPersistExn).2.blobDeletes = [] ∧
    (updateUser demoUpdateUser demoEnvPersistExn).2.blobDeletes = [] :=
  ⟨⟨(C1_rollback_on_failed_update_amended.1 demoUpdatePost demoEnvPersistNull
      "blobNew" "urlNew" (by decide) rfl rfl rfl).1,
    (C1_rollback_on_failed_update_amended.1 demoUpdatePost demoEnvPersistNull
      "blobNew" "urlNew" (by decide) rfl rfl rfl).2.1⟩,
   (C1_rollback_on_failed_update_amended.2.1 demoUpdateUser demoEnvPersistNull
      "blobNew" "urlNew" (by decide) rfl rfl rfl).2,
   (C1_rollback_on_failed_update_amended.2.2.1 demoUpdatePost demoEnvPersistExn
      "blobNew" "urlNew" (by decide) rfl rfl rfl).2,
   (C1_rollback_on_failed_update_amended.2.2.2 demoUpdateUser demoEnvPersistExn
      "blobNew" "urlNew" (by decide) rfl rfl rfl).2⟩

/-- C2 is refuted at a concrete input: update-user with a new image and
an existing image id equal to the empty string, where the document
update succeeds.  The new image was supplied and uploaded, the update
succeeded, yet no deletion of the old blob id is issued, because the
success-path deletion is guarded by `user.imageId &&
hasFileToUpdate`. -/
theorem C2_counterexample :
    ((updateUser demoUpdateUserEmptyOld demoEnvOk).1).isSome = true ∧
    (updateUser demoUpdateUserEmptyOld demoEnvOk).2.uploads = ["blobNew"] ∧
    (updateUser demoUpdateUserEmptyOld demoEnvOk).2.blobDeletes = [] := by
  decide

/-- C2 (amended): if the document-update step succeeds and a new image
was supplied, `updatePost` deletes the old blob id unconditionally and
the stored document references the new blob id; `updateUser` does the
same except that it skips the old-blob deletion when the caller's
existing image id is the empty string. -/
theorem C2_old_blob_deleted_on_success_amended :
    (∀ (post : IUpdatePost) (env : WriteEnv) (u url : String),
      0 < post.file.length →
      env.uploadRes = RCall.ok u →
      env.previewRes = RCall.ok url →
      env.persistRes = RCall.ok () →
      post.imageId ∈ (updatePost post env).2.blobDeletes ∧
      (∀ doc, (updatePost post env).1 = some doc → doc.imageId = u)) ∧
    (∀ (user : IUpdateUser) (env : WriteEnv) (u url : String),
      0 < user.file.length →
      env.uploadRes = RCall.ok u →
      env.previewRes = RCall.ok url →
      env.persistRes = RCall.ok () →
      user.imageId ≠ "" →
      user.imageId ∈ (updateUser user env).2.blobDeletes) := by
  constructor
  · intro post env u url hlen hu hp hper
    have hb : decide (post.file.length > 0) = true := decide_eq_true hlen
    simp [updatePost, hb, hu, hp, hper, uploadFile, getFilePreview,
      RCall.toOption]
  · intro user env u url hlen hu hp hper hne
    have hb : decide (user.file.length > 0) = true := decide_eq_true hlen
    have hbne : decide (user.imageId ≠ "") = true := decide_eq_true hne
    simp [updateUser, hb, hbne, hu, hp, hper, uploadFile, getFilePreview,
      RCall.toOption]

/-- Witness for the amended C2: concrete successful update-post and
update-user runs with a new image delete the old blob id "blobOld". -/
theorem C2_old_blob_deleted_witness :
    "blobOld" ∈ (updatePost demoUpdatePost demoEnvOk).2.blobDeletes ∧
    "blobOld" ∈ (updateUser demoUpdateUser demoEnvOk).2.blobDeletes :=
  ⟨(C2_old_blob_deleted_on_success_amended.1 demoUpdatePost demoEnvOk
      "blobNew" "urlNew" (by decide) rfl rfl rfl).1,
   C2_old_blob_deleted_on_success_amended.2 demoUpdateUser demoEnvOk
      "blobNew" "urlNew" (by decide) rfl rfl rfl (by decide)⟩

/-- C5 is refuted at a concrete input: create-post where the document
creation fails by THROWING.  The blob "blobNew" was uploaded, the
workflow fails, yet no deletion is issued: the uploaded blob remains
orphaned on this failure path. -/
theorem C5_counterexample :
    (createPost demoNewPost demoEnvPersistExn).1 = none ∧
    (createPost demoNewPost demoEnvPersistExn).2.uploads = ["blobNew"] ∧
    (createPost demoNewPost demoEnvPersistExn).2.blobDeletes = [] := by
  decide

/-- C5 (amended): in `createPost`, if the preview-URL derivation fails
the just-uploaded blob is deleted, and if the document creation fails by
returning a falsy document the just-uploaded blob is deleted; but if the
document creation throws, the outer catch swallows the failure without
deleting the blob, so that failure path leaves the uploaded blob
orphaned. -/
theorem C5_createPost_cleanup_amended :
    (∀ (post : INewPost) (env : WriteEnv) (b : String),
      env.uploadRes = RCall.ok b →
      getFilePreview env.previewRes = none →
      (createPost post env).1 = none ∧
      (createPost post env).2.blobDeletes = [b]) ∧
    (∀ (post : INewPost) (env : WriteEnv) (b url : String),
      env.uploadRes = RCall.ok b →
      env.previewRes = RCall.ok url →
      env.persistRes = RCall.nullish →
      (createPost post env).1 = none ∧
      (createPost post env).2.blobDeletes = [b]) ∧
    (∀ (post : INewPost) (env : WriteEnv) (b url : String),
      env.uploadRes = RCall.ok b →
      env.previewRes = RCall.ok url →
      env.persistRes = RCall.exn →
      (createPost post env).1 = none ∧
      (createPost post env).2.blobDeletes = []) := by
  refine ⟨?_, ?_, ?_⟩
  · intro post env b hu hp
    simp [createPost, hu, hp, uploadFile, RCall.toOption]
  · intro post env b url hu hp hper
    simp [createPost, hu, hp, hper, uploadFile, getFilePreview, RCall.toOption]
  · intro post env b url hu hp hper
    simp [createPost, hu, hp, hper, uploadFile, getFilePreview, RCall.toOption]

/-- Witness for the amended C5: a concrete failed preview derivation and
a concrete falsy document creation both delete the uploaded blob, while
a concrete thrown document creation deletes nothing. -/
theorem C5_createPost_cleanup_witness :
    ((createPost demoNewPost demoEnvPreviewFail).1 = none ∧
     (createPost demoNewPost demoEnvPreviewFail).2.blobDeletes = ["blobNew"]) ∧
    (createPost demoNewPost demoEnvPersistNull).2.blobDeletes = ["blobNew"] ∧
    (createPost demoNewPost demoEnvPersistExn).2.blobDeletes = [] :=
  ⟨C5_createPost_cleanup_amended.1 demoNewPost demoEnvPreviewFail
      "blobNew" rfl rfl,
   (C5_createPost_cleanup_amended.2.1 demoNewPost demoEnvPersistNull
      "blobNew" "urlNew" rfl rfl rfl).2,
   (C5_createPost_cleanup_amended.2.2 demoNewPost demoEnvPersistExn
      "blobNew" "urlNew" rfl rfl rfl).2⟩

/-- C8 is refuted at a concrete input: `getPostById` checks its post id
OUTSIDE the try/catch (`if (!postId) throw Error;` at api.ts 248), so an
absent (or empty) post id makes the workflow throw to the caller instead
of returning a distinguished non-success outcome. -/
theorem C8_counterexample :
    getPostById none (RCall.ok { id := "p" }) = Except.error () ∧
    getPostById (some "") (RCall.ok { id := "p" }) = Except.error () :=
  ⟨rfl, rfl⟩

/-- C8 (amended): every remote step failure inside a workflow's try
block is caught at that workflow's boundary and reported as a
distinguished non-success outcome.  `getPostById` never propagates an
exception PROVIDED its post id is present (truthy); with an absent or
empty id it throws synchronously.  `createUserAccount` never propagates:
a failing account creation yields the returned error value, a failing
document save yields `undefined`, and both failure outcomes differ from
every success outcome `user doc`. -/
theorem C8_failures_caught_amended :
    (∀ (pid : Option String) (env : RCall PostDoc),
      jsTruthyStr pid = true →
      getPostById pid env = Except.ok env.toOption) ∧
    (∀ (e p n u : String) (env : CUAEnv),
      env.accountRes = RCall.exn →
      createUserAccount e p n u env = CUAOut.errVal) ∧
    (∀ (e p n u : String) (env : CUAEnv) (acc : String × String × String),
      env.accountRes = RCall.ok acc →
      env.saveRes = RCall.exn →
      createUserAccount e p n u env = CUAOut.undef) ∧
    (∀ d, (CUAOut.errVal == CUAOut.user d) = false ∧
      (CUAOut.undef == CUAOut.user d) = false) := by
  refine ⟨?_, ?_, ?_, ?_⟩
  · intro pid env h
    simp [getPostById, h]
  · intro e p n u env h
    simp [createUserAccount, h]
  · intro e p n u env acc h1 h2
    simp [createUserAccount, h1, h2, saveUserToDB]
  · intro d
    exact ⟨rfl, rfl⟩

/-- Witness for the amended C8: with a present post id the workflow
returns a non-exceptional outcome, and concrete step failures of
`createUserAccount` yield the distinguished non-success outcomes. -/
theorem C8_failures_caught_witness :
    getPostById (some "p1") (RCall.ok { id := "p1" }) =
      Except.ok (some { id := "p1" }) ∧
    createUserAccount "e@x.y" "pw123456" "Ada" "ada" demoCUAEnvExn =
      CUAOut.errVal ∧
    createUserAccount "e@x.y" "pw123456" "Ada" "ada" demoCUAEnvSaveExn =
      CUAOut.undef :=
  ⟨C8_failures_caught_amended.1 (some "p1") (RCall.ok { id := "p1" })
      (by decide),
   C8_failures_caught_amended.2.1 "e@x.y" "pw123456" "Ada" "ada"
      demoCUAEnvExn rfl,
   C8_failures_caught_amended.2.2.1 "e@x.y" "pw123456" "Ada" "ada"
      demoCUAEnvSaveExn ("a1", "Ada", "ada@x.y") rfl rfl⟩
